import Mathlib

/-!
Verification of the dwell-energy accounting engine of
`dvcon-2025-power-modeling` (src/src/main.cpp and
src/analysis/output/reports/getPowerForState.cpp).

Real numbers (`double` in the source) are modelled as exact rationals `ℚ`;
simulation time (`sc_core::sc_time`, resolution 1 s, read via `to_seconds`)
is modelled as a rational timestamp in seconds.  The SystemC event plumbing
is abstracted into an explicit state machine: the body of the
`TestbenchModule::processing` loop becomes a step function `onEvent`
consuming one `(timestamp, state)` pair, and `TestbenchModule::finalizeEnergy`
becomes a function of the state and the closing timestamp
(`sc_time_stamp()` at the moment of the call).
-/

namespace DvconPower

/-- Power constants, main.cpp lines 10-16. -/
def POWER_OFFICE : ℚ := 1.0357

def POWER_NOT_AT_WORK : ℚ := 1.0215

def POWER_REMOTE : ℚ := 1.0284

def POWER_OFFICE_BT : ℚ := 1.0960

def POWER_REMOTE_BT : ℚ := 1.1500

def POWER_NOT_AT_WORK_BT : ℚ := 1.0925

def POWER_DEFAULT : ℚ := 1.0

/-- Measured ground truth, main.cpp line 19. -/
def MEASURED_TOTAL_ENERGY : ℚ := 4262.89

/-- Per-state measured energy, main.cpp lines 24-31. -/
def MEASURED_ENERGY_STATE : ℕ → ℚ
  | 0 => 3840.36
  | 1 => 268.66
  | 2 => 131.64
  | 3 => 10.96
  | 4 => 6.90
  | 5 => 4.37
  | _ => 0

/-- The free-standing power lookup,
src/analysis/output/reports/getPowerForState.cpp. -/
def getPowerForState (state : ℤ) : ℚ :=
  if state = 0 then 1.0357
  else if state = 1 then 1.0215
  else if state = 2 then 1.0284
  else if state = 3 then 1.0960
  else if state = 4 then 1.1500
  else if state = 5 then 1.0925
  else 1.0

namespace TestbenchModule

/-- The private member `TestbenchModule::getPowerForState`,
main.cpp lines 244-254. -/
def getPowerForState (state : ℤ) : ℚ :=
  if state = 0 then POWER_OFFICE
  else if state = 1 then POWER_NOT_AT_WORK
  else if state = 2 then POWER_REMOTE
  else if state = 3 then POWER_OFFICE_BT
  else if state = 4 then POWER_REMOTE_BT
  else if state = 5 then POWER_NOT_AT_WORK_BT
  else POWER_DEFAULT

/-- The mutable fields of `TestbenchModule` (main.cpp lines 45-54).
The six-slot arrays `state_energy` / `state_duration` are modelled as
functions `ℕ → ℚ`; the source only ever indexes them under the guard
`previous_status >= 0 && previous_status < 6`. -/
structure State where
  powerEstimation : ℚ
  energyEstimation : ℚ
  previous_status : ℤ
  last_transition_time : ℚ
  transition_count : ℤ
  state_energy : ℕ → ℚ
  state_duration : ℕ → ℚ

/-- The state at the top of `processing()` (main.cpp lines 62-64):
members are value-initialized at construction, `last_transition_time`
is set to `sc_time_stamp()` (0 at elaboration) and `previous_status`
to -1 before the event loop starts. -/
def initState : State :=
  { powerEstimation := 0
    energyEstimation := 0
    previous_status := -1
    last_transition_time := 0
    transition_count := 0
    state_energy := fun _ => 0
    state_duration := fun _ => 0 }

/-- Interval-closing accounting shared verbatim between the event loop
(main.cpp lines 70-89) and `finalizeEnergy` (main.cpp lines 105-119):
if `previous_status >= 0`, energy `power(previous_status) × duration`
is added to `energyEstimation`, and, when additionally
`previous_status < 6`, the energy and the duration are added to the
per-state arrays at index `previous_status`. -/
def closeInterval (st : State) (t : ℚ) : State :=
  if 0 ≤ st.previous_status then
    let duration_sec : ℚ := t - st.last_transition_time
    let prev_power : ℚ := getPowerForState st.previous_status
    let energy_increment : ℚ := prev_power * duration_sec
    let st1 : State := { st with energyEstimation := st.energyEstimation + energy_increment }
    if 0 ≤ st.previous_status ∧ st.previous_status < 6 then
      { st1 with
        state_energy :=
          Function.update st1.state_energy st.previous_status.toNat
            (st1.state_energy st.previous_status.toNat + energy_increment)
        state_duration :=
          Function.update st1.state_duration st.previous_status.toNat
            (st1.state_duration st.previous_status.toNat + duration_sec) }
    else st1
  else st

/-- One iteration of the `processing()` loop (main.cpp lines 66-101) for
the event `(timestamp, status)`: close the previous interval if one is
open, then set the instantaneous power, bump `transition_count`
(unconditionally, line 96), and open the new interval. -/
def onEvent (st : State) (e : ℚ × ℤ) : State :=
  let st1 := closeInterval st e.1
  { st1 with
    powerEstimation := getPowerForState e.2
    transition_count := st1.transition_count + 1
    previous_status := e.2
    last_transition_time := e.1 }

/-- Run the event loop over a whole timestamped event sequence. -/
def processEvents (st : State) (es : List (ℚ × ℤ)) : State :=
  es.foldl onEvent st

/-- `TestbenchModule::finalizeEnergy` (main.cpp lines 104-125), with
`now` standing for `sc_time_stamp()` at the call.  Note that it performs
the interval-closing accounting but resets neither `previous_status` nor
`last_transition_time`. -/
def finalizeEnergy (st : State) (now : ℚ) : State :=
  closeInterval st now

/-- Sum of the six-slot per-state energy array. -/
def sumEnergy (st : State) : ℚ :=
  st.state_energy 0 + st.state_energy 1 + st.state_energy 2 +
    st.state_energy 3 + st.state_energy 4 + st.state_energy 5

/-- Sum of the six-slot per-state duration array. -/
def sumDuration (st : State) : ℚ :=
  st.state_duration 0 + st.state_duration 1 + st.state_duration 2 +
    st.state_duration 3 + st.state_duration 4 + st.state_duration 5

/-- `TestbenchModule::validateResults` (main.cpp line 128):
`error = |energyEstimation - MEASURED_TOTAL_ENERGY|`. -/
def validateResults_error (energy : ℚ) : ℚ :=
  |energy - MEASURED_TOTAL_ENERGY|

/-- `TestbenchModule::validateResults` (main.cpp line 129):
`error_percent = (error / MEASURED_TOTAL_ENERGY) * 100.0`. -/
def validateResults_error_percent (energy : ℚ) : ℚ :=
  (validateResults_error energy / MEASURED_TOTAL_ENERGY) * 100

/-- `TestbenchModule::validateResults` (main.cpp line 136): the run
passes exactly when `error_percent < 1.0`. -/
def validateResults_pass (energy : ℚ) : Bool :=
  validateResults_error_percent energy < 1

/-- The per-state error-percent expression of
`TestbenchModule::generateValidationCSV` (main.cpp lines 197-199 and
217-219): signed error, with the percentage replaced by 0 whenever the
measured reference is not positive, to avoid dividing by zero. -/
def generateValidationCSV_state_error_pct (model measured : ℚ) : ℚ :=
  if 0 < measured then (model - measured) / measured * 100 else 0

/-- The `Transitions` model value of the validation CSV
(main.cpp line 177): `transition_count - 1`. -/
def generateValidationCSV_transitions (st : State) : ℤ :=
  st.transition_count - 1

/-- `sc_time` subtraction as performed at main.cpp lines 71 and 107: an
`sc_time` stores an unsigned 64-bit tick count, so the difference wraps
modulo 2^64 when the subtrahend exceeds the minuend instead of going
negative. -/
def sc_time_sub (a b : ℕ) : ℕ :=
  (a % 2 ^ 64 + (2 ^ 64 - b % 2 ^ 64)) % 2 ^ 64

/-- The `TestbenchModule` state with simulation time kept as the raw
`sc_time` tick count of the source (`sc_set_time_resolution(1.0, SC_SEC)`
at main.cpp line 283, so one tick is one second).  `State` models time
as a signed rational, which agrees with `sc_time` arithmetic on the
non-decreasing timestamps the simulation kernel produces
(`sc_time_sub_cast_of_le`); this variant keeps the unsigned wraparound
semantics of `sc_time`, which differs only when a timestamp earlier than
the open interval's start is considered. -/
structure TickState where
  powerEstimation : ℚ
  energyEstimation : ℚ
  previous_status : ℤ
  last_transition_time : ℕ
  transition_count : ℤ
  state_energy : ℕ → ℚ
  state_duration : ℕ → ℚ

/-- The interval-closing accounting at `sc_time` tick level: identical
to `closeInterval` (main.cpp lines 70-89 and 105-119) except that the
duration is computed by the wrapping `sc_time` subtraction and converted
to seconds by `to_seconds()` (one tick = one second). -/
def closeIntervalTicks (st : TickState) (t : ℕ) : TickState :=
  if 0 ≤ st.previous_status then
    let duration_sec : ℚ := (sc_time_sub t st.last_transition_time : ℚ)
    let prev_power : ℚ := getPowerForState st.previous_status
    let energy_increment : ℚ := prev_power * duration_sec
    let st1 : TickState := { st with energyEstimation := st.energyEstimation + energy_increment }
    if 0 ≤ st.previous_status ∧ st.previous_status < 6 then
      { st1 with
        state_energy :=
          Function.update st1.state_energy st.previous_status.toNat
            (st1.state_energy st.previous_status.toNat + energy_increment)
        state_duration :=
          Function.update st1.state_duration st.previous_status.toNat
            (st1.state_duration st.previous_status.toNat + duration_sec) }
    else st1
  else st

/-- One `processing()` loop iteration (main.cpp lines 66-101) at
`sc_time` tick level. -/
def onEventTicks (st : TickState) (e : ℕ × ℤ) : TickState :=
  let st1 := closeIntervalTicks st e.1
  { st1 with
    powerEstimation := getPowerForState e.2
    transition_count := st1.transition_count + 1
    previous_status := e.2
    last_transition_time := e.1 }

/-- `TestbenchModule::finalizeEnergy` (main.cpp lines 104-125) at
`sc_time` tick level. -/
def finalizeEnergyTicks (st : TickState) (now : ℕ) : TickState :=
  closeIntervalTicks st now

end TestbenchModule

/-- The event sequence produced by `QUEUE::generateRealisticSequence`
(main.cpp lines 264-276) as seen by the testbench: each `write` is
observed at the simulation time reached by the preceding `wait`s. -/
def referenceSequence : List (ℚ × ℤ) :=
  [(0, 1), (10, 0), (153, 4), (159, 2), (287, 0), (371, 5),
   (375, 1), (606, 0), (3132, 3), (3142, 0), (4097, 1)]

namespace TestbenchModule

lemma getPowerForState_pos (s : ℤ) : 0 < getPowerForState s := by
  unfold getPowerForState
  unfold POWER_OFFICE POWER_NOT_AT_WORK POWER_REMOTE POWER_OFFICE_BT
    POWER_REMOTE_BT POWER_NOT_AT_WORK_BT POWER_DEFAULT
  split_ifs <;> norm_num

lemma getPowerForState_of_six_le (s : ℤ) (h : 6 ≤ s) : getPowerForState s = 1 := by
  unfold getPowerForState
  unfold POWER_DEFAULT
  split_ifs with h0 h1 h2 h3 h4 h5 <;> first | omega | norm_num

lemma getPowerForState_of_neg (s : ℤ) (h : s < 0) : getPowerForState s = 1 := by
  unfold getPowerForState
  unfold POWER_DEFAULT
  split_ifs with h0 h1 h2 h3 h4 h5 <;> first | omega | norm_num

lemma closeInterval_of_neg (st : State) (t : ℚ) (h : st.previous_status < 0) :
    closeInterval st t = st := by
  unfold closeInterval
  rw [if_neg (by omega)]

lemma closeInterval_powerEstimation (st : State) (t : ℚ) :
    (closeInterval st t).powerEstimation = st.powerEstimation := by
  unfold closeInterval
  split_ifs <;> rfl

lemma closeInterval_transition_count (st : State) (t : ℚ) :
    (closeInterval st t).transition_count = st.transition_count := by
  unfold closeInterval
  split_ifs <;> rfl

lemma closeInterval_previous_status (st : State) (t : ℚ) :
    (closeInterval st t).previous_status = st.previous_status := by
  unfold closeInterval
  split_ifs <;> rfl

lemma closeInterval_last_transition_time (st : State) (t : ℚ) :
    (closeInterval st t).last_transition_time = st.last_transition_time := by
  unfold closeInterval
  split_ifs <;> rfl

lemma closeInterval_energy (st : State) (t : ℚ) (h : 0 ≤ st.previous_status) :
    (closeInterval st t).energyEstimation =
      st.energyEstimation + getPowerForState st.previous_status * (t - st.last_transition_time) := by
  unfold closeInterval
  rw [if_pos h]
  split_ifs <;> rfl

lemma sum6_update (f : ℕ → ℚ) (k : ℕ) (hk : k < 6) (x : ℚ) :
    Function.update f k (f k + x) 0 + Function.update f k (f k + x) 1 +
      Function.update f k (f k + x) 2 + Function.update f k (f k + x) 3 +
      Function.update f k (f k + x) 4 + Function.update f k (f k + x) 5 =
    (f 0 + f 1 + f 2 + f 3 + f 4 + f 5) + x := by
  interval_cases k <;> simp [Function.update_apply] <;> ring

lemma closeInterval_sumEnergy_in (st : State) (t : ℚ)
    (h0 : 0 ≤ st.previous_status) (h6 : st.previous_status < 6) :
    sumEnergy (closeInterval st t) =
      sumEnergy st + getPowerForState st.previous_status * (t - st.last_transition_time) := by
  unfold closeInterval
  rw [if_pos h0, if_pos ⟨h0, h6⟩]
  show Function.update st.state_energy _ _ 0 + _ + _ + _ + _ + _ = _
  exact sum6_update st.state_energy st.previous_status.toNat (by omega) _

lemma closeInterval_sumDuration_in (st : State) (t : ℚ)
    (h0 : 0 ≤ st.previous_status) (h6 : st.previous_status < 6) :
    sumDuration (closeInterval st t) = sumDuration st + (t - st.last_transition_time) := by
  unfold closeInterval
  rw [if_pos h0, if_pos ⟨h0, h6⟩]
  show Function.update st.state_duration _ _ 0 + _ + _ + _ + _ + _ = _
  exact sum6_update st.state_duration st.previous_status.toNat (by omega) _

lemma closeInterval_arrays_of_six_le (st : State) (t : ℚ) (h : 6 ≤ st.previous_status) :
    (closeInterval st t).state_energy = st.state_energy ∧
      (closeInterval st t).state_duration = st.state_duration := by
  unfold closeInterval
  rw [if_pos (by omega), if_neg (by omega)]
  exact ⟨rfl, rfl⟩

lemma onEvent_energy (st : State) (e : ℚ × ℤ) :
    (onEvent st e).energyEstimation = (closeInterval st e.1).energyEstimation := rfl

lemma onEvent_state_energy (st : State) (e : ℚ × ℤ) :
    (onEvent st e).state_energy = (closeInterval st e.1).state_energy := rfl

lemma onEvent_state_duration (st : State) (e : ℚ × ℤ) :
    (onEvent st e).state_duration = (closeInterval st e.1).state_duration := rfl

lemma onEvent_previous_status (st : State) (e : ℚ × ℤ) :
    (onEvent st e).previous_status = e.2 := rfl

lemma onEvent_last_transition_time (st : State) (e : ℚ × ℤ) :
    (onEvent st e).last_transition_time = e.1 := rfl

lemma onEvent_transition_count (st : State) (e : ℚ × ℤ) :
    (onEvent st e).transition_count = st.transition_count + 1 := by
  show (closeInterval st e.1).transition_count + 1 = _
  rw [closeInterval_transition_count]

lemma sumEnergy_onEvent (st : State) (e : ℚ × ℤ) :
    sumEnergy (onEvent st e) = sumEnergy (closeInterval st e.1) := rfl

lemma sumDuration_onEvent (st : State) (e : ℚ × ℤ) :
    sumDuration (onEvent st e) = sumDuration (closeInterval st e.1) := rfl

lemma processEvents_nil (st : State) : processEvents st [] = st := rfl

lemma processEvents_cons (st : State) (e : ℚ × ℤ) (es : List (ℚ × ℤ)) :
    processEvents st (e :: es) = processEvents (onEvent st e) es := rfl

lemma finalizeEnergy_conserve (st : State) (now : ℚ)
    (h6 : st.previous_status < 6) (hsum : sumEnergy st = st.energyEstimation) :
    sumEnergy (finalizeEnergy st now) = (finalizeEnergy st now).energyEstimation := by
  unfold finalizeEnergy
  rcases lt_or_le st.previous_status 0 with hneg | hpos
  · rw [closeInterval_of_neg st now hneg]
    exact hsum
  · rw [closeInterval_sumEnergy_in st now hpos h6, closeInterval_energy st now hpos, hsum]

lemma processEvents_conserve (es : List (ℚ × ℤ)) : ∀ st : State,
    st.previous_status < 6 →
    (∀ e ∈ es, e.2 < 6) →
    sumEnergy st = st.energyEstimation →
    sumEnergy (processEvents st es) = (processEvents st es).energyEstimation ∧
      (processEvents st es).previous_status < 6 := by
  induction es with
  | nil =>
    intro st h6 _ hsum
    exact ⟨hsum, h6⟩
  | cons e es ih =>
    intro st h6 hall hsum
    rw [processEvents_cons]
    refine ih (onEvent st e) ?_ (fun x hx => hall x (List.mem_cons_of_mem e hx)) ?_
    · rw [onEvent_previous_status]
      exact hall e (List.mem_cons_self e es)
    · rw [sumEnergy_onEvent, onEvent_energy]
      rcases lt_or_le st.previous_status 0 with hneg | hpos
      · rw [closeInterval_of_neg st e.1 hneg]
        exact hsum
      · rw [closeInterval_sumEnergy_in st e.1 hpos h6, closeInterval_energy st e.1 hpos, hsum]

lemma processEvents_telescope (es : List (ℚ × ℤ)) : ∀ st : State,
    0 ≤ st.previous_status → st.previous_status < 6 →
    (∀ e ∈ es, 0 ≤ e.2 ∧ e.2 < 6) →
    sumDuration (processEvents st es) =
      sumDuration st + ((processEvents st es).last_transition_time - st.last_transition_time) ∧
      0 ≤ (processEvents st es).previous_status ∧ (processEvents st es).previous_status < 6 := by
  induction es with
  | nil =>
    intro st h0 h6 _
    rw [processEvents_nil]
    exact ⟨by ring, h0, h6⟩
  | cons e es ih =>
    intro st h0 h6 hall
    rw [processEvents_cons]
    obtain ⟨he0, he6⟩ := hall e (List.mem_cons_self e es)
    obtain ⟨hsum, hrest⟩ := ih (onEvent st e)
      (by rw [onEvent_previous_status]; exact he0)
      (by rw [onEvent_previous_status]; exact he6)
      (fun x hx => hall x (List.mem_cons_of_mem e hx))
    refine ⟨?_, hrest⟩
    rw [hsum, sumDuration_onEvent, closeInterval_sumDuration_in st e.1 h0 h6,
      onEvent_last_transition_time]
    ring

lemma processEvents_transition_count (es : List (ℚ × ℤ)) : ∀ st : State,
    (processEvents st es).transition_count = st.transition_count + es.length := by
  induction es with
  | nil =>
    intro st
    rw [processEvents_nil]
    simp
  | cons e es ih =>
    intro st
    rw [processEvents_cons, ih, onEvent_transition_count, List.length_cons]
    push_cast
    ring

lemma closeInterval_sumDuration_of_six_le (st : State) (t : ℚ)
    (h : 6 ≤ st.previous_status) :
    sumDuration (closeInterval st t) = sumDuration st := by
  unfold sumDuration
  rw [(closeInterval_arrays_of_six_le st t h).2]

lemma closeInterval_sumEnergy_of_six_le (st : State) (t : ℚ)
    (h : 6 ≤ st.previous_status) :
    sumEnergy (closeInterval st t) = sumEnergy st := by
  unfold sumEnergy
  rw [(closeInterval_arrays_of_six_le st t h).1]


lemma sc_time_sub_of_lt (a b : ℕ) (hab : a < b) (hb : b < 2 ^ 64) :
    sc_time_sub a b = 2 ^ 64 - (b - a) := by
  unfold sc_time_sub
  omega

lemma sc_time_sub_cast_of_le (a b : ℕ) (hba : b ≤ a) (ha : a < 2 ^ 64) :
    (sc_time_sub a b : ℚ) = (a : ℚ) - (b : ℚ) := by
  have h : sc_time_sub a b = a - b := by
    unfold sc_time_sub
    omega
  rw [h, Nat.cast_sub hba]

lemma closeIntervalTicks_energy (st : TickState) (t : ℕ) (h : 0 ≤ st.previous_status) :
    (closeIntervalTicks st t).energyEstimation =
      st.energyEstimation + getPowerForState st.previous_status *
        (sc_time_sub t st.last_transition_time : ℚ) := by
  unfold closeIntervalTicks
  rw [if_pos h]
  split_ifs <;> rfl

lemma onEventTicks_energy (st : TickState) (e : ℕ × ℤ) :
    (onEventTicks st e).energyEstimation = (closeIntervalTicks st e.1).energyEstimation := rfl

lemma onEventTicks_last_transition_time (st : TickState) (e : ℕ × ℤ) :
    (onEventTicks st e).last_transition_time = e.1 := rfl

end TestbenchModule

/-- Claim C8: the validator computes `error = |total - reference|` and
`error_percent = 100 * error / reference`, passes exactly when the error
percentage is strictly below the 1% tolerance, and the per-state check
reports an error percentage of 0 whenever the reference value is zero. -/
theorem C8_validator_formulas :
    (∀ E : ℚ, TestbenchModule.validateResults_error E = |E - MEASURED_TOTAL_ENERGY|) ∧
    (∀ E : ℚ, TestbenchModule.validateResults_error_percent E =
      100 * |E - MEASURED_TOTAL_ENERGY| / MEASURED_TOTAL_ENERGY) ∧
    (∀ E : ℚ, TestbenchModule.validateResults_pass E = true ↔
      100 * |E - MEASURED_TOTAL_ENERGY| / MEASURED_TOTAL_ENERGY < 1) ∧
    (∀ model : ℚ, TestbenchModule.generateValidationCSV_state_error_pct model 0 = 0) := by
  refine ⟨fun E => rfl, fun E => ?_, fun E => ?_, fun model => ?_⟩
  · unfold TestbenchModule.validateResults_error_percent TestbenchModule.validateResults_error
    ring
  · unfold TestbenchModule.validateResults_pass TestbenchModule.validateResults_error_percent
      TestbenchModule.validateResults_error
    rw [decide_eq_true_iff]
    have hcomm : |E - MEASURED_TOTAL_ENERGY| / MEASURED_TOTAL_ENERGY * 100 =
        100 * |E - MEASURED_TOTAL_ENERGY| / MEASURED_TOTAL_ENERGY := by ring
    rw [hcomm]
  · unfold TestbenchModule.generateValidationCSV_state_error_pct
    rw [if_neg (lt_irrefl 0)]

/-- Claim C9: the free-standing `getPowerForState` and the member
`TestbenchModule::getPowerForState` agree on every integer state code,
and the member's named constants equal the free function's literals. -/
theorem C9_power_tables_agree :
    (∀ s : ℤ, TestbenchModule.getPowerForState s = getPowerForState s) ∧
    POWER_OFFICE = 1.0357 ∧ POWER_NOT_AT_WORK = 1.0215 ∧ POWER_REMOTE = 1.0284 ∧
    POWER_OFFICE_BT = 1.0960 ∧ POWER_REMOTE_BT = 1.1500 ∧
    POWER_NOT_AT_WORK_BT = 1.0925 ∧ POWER_DEFAULT = 1.0 :=
  ⟨fun _ => rfl, rfl, rfl, rfl, rfl, rfl, rfl, rfl⟩

/-- Claim C10: `finalizeEnergy` touches only the energy and duration
accumulators; `powerEstimation`, `transition_count`, `previous_status`
and `last_transition_time` are unchanged by a finalize call. -/
theorem C10_finalize_frame (st : TestbenchModule.State) (now : ℚ) :
    (TestbenchModule.finalizeEnergy st now).powerEstimation = st.powerEstimation ∧
    (TestbenchModule.finalizeEnergy st now).transition_count = st.transition_count ∧
    (TestbenchModule.finalizeEnergy st now).previous_status = st.previous_status ∧
    (TestbenchModule.finalizeEnergy st now).last_transition_time = st.last_transition_time :=
  ⟨TestbenchModule.closeInterval_powerEstimation st now,
   TestbenchModule.closeInterval_transition_count st now,
   TestbenchModule.closeInterval_previous_status st now,
   TestbenchModule.closeInterval_last_transition_time st now⟩

/-- Claim C4 fails as stated: the very first event does not leave
`transition_count` at zero — the counter is incremented unconditionally
(main.cpp line 96), so after one event it is 1. -/
theorem C4_counterexample :
    (TestbenchModule.processEvents TestbenchModule.initState
      [((0 : ℚ), (1 : ℤ))]).transition_count ≠ 0 := by
  decide

/-- Claim C4 (amended): `transition_count` counts raw events, not closed
intervals: it is incremented on every event including the first, so after
processing a sequence it equals the number of events; the CSV report's
`Transitions` row compensates by printing `transition_count - 1`. -/
theorem C4_transition_count_raw_events (es : List (ℚ × ℤ)) :
    (TestbenchModule.processEvents TestbenchModule.initState es).transition_count = es.length ∧
    TestbenchModule.generateValidationCSV_transitions
      (TestbenchModule.processEvents TestbenchModule.initState es) = (es.length : ℤ) - 1 := by
  have h := TestbenchModule.processEvents_transition_count es TestbenchModule.initState
  unfold TestbenchModule.generateValidationCSV_transitions
  constructor <;> rw [h] <;> norm_num [TestbenchModule.initState]

/-- Claim C1 fails as stated: with a state code outside 0-5 (here 7),
the closed interval's energy is added to `total_energy_joules` but not to
any per-state slot (the guard at main.cpp line 81 skips the arrays), so
the conservation law breaks. -/
theorem C1_counterexample :
    TestbenchModule.sumEnergy (TestbenchModule.processEvents TestbenchModule.initState
        [((0 : ℚ), (7 : ℤ)), ((10 : ℚ), (0 : ℤ))]) ≠
      (TestbenchModule.processEvents TestbenchModule.initState
        [((0 : ℚ), (7 : ℤ)), ((10 : ℚ), (0 : ℤ))]).energyEstimation := by
  simp only [TestbenchModule.processEvents, List.foldl, TestbenchModule.onEvent,
    TestbenchModule.closeInterval, TestbenchModule.initState, TestbenchModule.getPowerForState,
    POWER_OFFICE, POWER_NOT_AT_WORK, POWER_REMOTE, POWER_OFFICE_BT, POWER_REMOTE_BT,
    POWER_NOT_AT_WORK_BT, POWER_DEFAULT, TestbenchModule.sumEnergy, Function.update_apply]
  norm_num [Int.toNat]

/-- Claim C1 (amended): the conservation law
`sum(state_energy) = energyEstimation` holds after processing any event
sequence all of whose state codes are below 6 (negative codes included;
such intervals contribute to neither side), and it still holds after
finalize.  A state code of 6 or more breaks it. -/
theorem C1_energy_conservation (es : List (ℚ × ℤ)) (now : ℚ)
    (hall : ∀ e ∈ es, e.2 < 6) :
    TestbenchModule.sumEnergy (TestbenchModule.processEvents TestbenchModule.initState es) =
      (TestbenchModule.processEvents TestbenchModule.initState es).energyEstimation ∧
    TestbenchModule.sumEnergy (TestbenchModule.finalizeEnergy
        (TestbenchModule.processEvents TestbenchModule.initState es) now) =
      (TestbenchModule.finalizeEnergy
        (TestbenchModule.processEvents TestbenchModule.initState es) now).energyEstimation := by
  obtain ⟨h1, h2⟩ := TestbenchModule.processEvents_conserve es TestbenchModule.initState
    (by decide) hall (by norm_num [TestbenchModule.sumEnergy, TestbenchModule.initState])
  exact ⟨h1, TestbenchModule.finalizeEnergy_conserve _ now h2 h1⟩

/-- Witness for C1 at a concrete in-range sequence. -/
theorem C1_witness :
    (∀ e ∈ ([((0 : ℚ), (1 : ℤ)), ((10 : ℚ), (0 : ℤ))] : List (ℚ × ℤ)), e.2 < 6) ∧
    (TestbenchModule.sumEnergy (TestbenchModule.processEvents TestbenchModule.initState
        [((0 : ℚ), (1 : ℤ)), ((10 : ℚ), (0 : ℤ))]) =
      (TestbenchModule.processEvents TestbenchModule.initState
        [((0 : ℚ), (1 : ℤ)), ((10 : ℚ), (0 : ℤ))]).energyEstimation ∧
    TestbenchModule.sumEnergy (TestbenchModule.finalizeEnergy
        (TestbenchModule.processEvents TestbenchModule.initState
          [((0 : ℚ), (1 : ℤ)), ((10 : ℚ), (0 : ℤ))]) 20) =
      (TestbenchModule.finalizeEnergy
        (TestbenchModule.processEvents TestbenchModule.initState
          [((0 : ℚ), (1 : ℤ)), ((10 : ℚ), (0 : ℤ))]) 20).energyEstimation) :=
  ⟨by decide, C1_energy_conservation [((0 : ℚ), (1 : ℤ)), ((10 : ℚ), (0 : ℤ))] 20 (by decide)⟩

/-- Claim C2 fails as stated: the code has no timestamp-order check and
no `InvalidTimestampOrder` failure path.  With an open interval for
state 0 started at tick 10, an event at the earlier tick 5 is processed
normally: the unsigned `sc_time` subtraction wraps to 2^64 - 5 ticks and
the accounting adds 1.0357 W x (2^64 - 5) s to the total, so the totals
are mutated instead of being left unchanged. -/
theorem C2_counterexample :
    (TestbenchModule.onEventTicks
        (TestbenchModule.TickState.mk 0 0 0 10 0 (fun _ => 0) (fun _ => 0))
        (5, 1)).energyEstimation ≠
      (TestbenchModule.TickState.mk 0 0 0 10 0 (fun _ => 0) (fun _ => 0)).energyEstimation := by
  simp only [TestbenchModule.onEventTicks, TestbenchModule.closeIntervalTicks,
    TestbenchModule.sc_time_sub, TestbenchModule.getPowerForState, POWER_OFFICE,
    POWER_NOT_AT_WORK, POWER_REMOTE, POWER_OFFICE_BT, POWER_REMOTE_BT,
    POWER_NOT_AT_WORK_BT, POWER_DEFAULT, Function.update_apply]
  norm_num [Int.toNat]

/-- Claim C2 (amended): there is no `InvalidTimestampOrder` failure path.
An `on_event` or finalize call whose timestamp is strictly earlier than
the open interval's start is processed unconditionally: the `sc_time`
duration wraps modulo 2^64 to the enormous positive value
`2^64 - (start - timestamp)` ticks (= seconds at the 1 s resolution),
the accounting adds `power × that` to `total_energy_joules`, strictly
increasing it, and `on_event` moves the interval start backwards to the
new timestamp — the totals are mutated, never left unchanged. -/
theorem C2_no_timestamp_order_check (st : TestbenchModule.TickState) (t : ℕ) (s : ℤ)
    (hopen : 0 ≤ st.previous_status)
    (hlast : st.last_transition_time < 2 ^ 64)
    (hearly : t < st.last_transition_time) :
    (TestbenchModule.onEventTicks st (t, s)).energyEstimation =
      st.energyEstimation + TestbenchModule.getPowerForState st.previous_status *
        ((2 ^ 64 - (st.last_transition_time - t) : ℕ) : ℚ) ∧
    st.energyEstimation < (TestbenchModule.onEventTicks st (t, s)).energyEstimation ∧
    (TestbenchModule.onEventTicks st (t, s)).last_transition_time = t ∧
    (TestbenchModule.finalizeEnergyTicks st t).energyEstimation =
      st.energyEstimation + TestbenchModule.getPowerForState st.previous_status *
        ((2 ^ 64 - (st.last_transition_time - t) : ℕ) : ℚ) ∧
    st.energyEstimation < (TestbenchModule.finalizeEnergyTicks st t).energyEstimation := by
  have hsub : TestbenchModule.sc_time_sub t st.last_transition_time =
      2 ^ 64 - (st.last_transition_time - t) :=
    TestbenchModule.sc_time_sub_of_lt t st.last_transition_time hearly hlast
  have hstep : (0 : ℚ) < TestbenchModule.getPowerForState st.previous_status *
      ((2 ^ 64 - (st.last_transition_time - t) : ℕ) : ℚ) := by
    refine mul_pos (TestbenchModule.getPowerForState_pos st.previous_status) ?_
    have hn : 0 < 2 ^ 64 - (st.last_transition_time - t) := by omega
    exact_mod_cast hn
  have h1 : (TestbenchModule.onEventTicks st (t, s)).energyEstimation =
      st.energyEstimation + TestbenchModule.getPowerForState st.previous_status *
        ((2 ^ 64 - (st.last_transition_time - t) : ℕ) : ℚ) := by
    rw [TestbenchModule.onEventTicks_energy]
    have h0 := TestbenchModule.closeIntervalTicks_energy st t hopen
    rw [hsub] at h0
    exact h0
  have h2 : (TestbenchModule.finalizeEnergyTicks st t).energyEstimation =
      st.energyEstimation + TestbenchModule.getPowerForState st.previous_status *
        ((2 ^ 64 - (st.last_transition_time - t) : ℕ) : ℚ) := by
    have h0 := TestbenchModule.closeIntervalTicks_energy st t hopen
    rw [hsub] at h0
    exact h0
  refine ⟨h1, by rw [h1]; linarith,
    TestbenchModule.onEventTicks_last_transition_time st (t, s), h2, by rw [h2]; linarith⟩

/-- Witness for C2 at a concrete state with an open interval for state 0
started at tick 10 (`TickState.mk 0 0 0 10 0 (fun _ => 0) (fun _ => 0)`:
zero totals, open interval `(state 0, start tick 10)`) and an event at
the earlier tick 5. -/
theorem C2_witness :
    (0 : ℤ) ≤ (TestbenchModule.TickState.mk 0 0 0 10 0 (fun _ => 0)
      (fun _ => 0)).previous_status ∧
    (TestbenchModule.TickState.mk 0 0 0 10 0 (fun _ => 0)
      (fun _ => 0)).last_transition_time < 2 ^ 64 ∧
    (5 : ℕ) < (TestbenchModule.TickState.mk 0 0 0 10 0 (fun _ => 0)
      (fun _ => 0)).last_transition_time ∧
    ((TestbenchModule.onEventTicks (TestbenchModule.TickState.mk 0 0 0 10 0 (fun _ => 0)
        (fun _ => 0)) (5, 1)).energyEstimation =
      (TestbenchModule.TickState.mk 0 0 0 10 0 (fun _ => 0) (fun _ => 0)).energyEstimation +
        TestbenchModule.getPowerForState
          (TestbenchModule.TickState.mk 0 0 0 10 0 (fun _ => 0) (fun _ => 0)).previous_status *
          ((2 ^ 64 - ((TestbenchModule.TickState.mk 0 0 0 10 0 (fun _ => 0)
            (fun _ => 0)).last_transition_time - 5) : ℕ) : ℚ) ∧
    (TestbenchModule.TickState.mk 0 0 0 10 0 (fun _ => 0) (fun _ => 0)).energyEstimation <
      (TestbenchModule.onEventTicks (TestbenchModule.TickState.mk 0 0 0 10 0 (fun _ => 0)
        (fun _ => 0)) (5, 1)).energyEstimation ∧
    (TestbenchModule.onEventTicks (TestbenchModule.TickState.mk 0 0 0 10 0 (fun _ => 0)
        (fun _ => 0)) (5, 1)).last_transition_time = 5 ∧
    (TestbenchModule.finalizeEnergyTicks (TestbenchModule.TickState.mk 0 0 0 10 0 (fun _ => 0)
        (fun _ => 0)) 5).energyEstimation =
      (TestbenchModule.TickState.mk 0 0 0 10 0 (fun _ => 0) (fun _ => 0)).energyEstimation +
        TestbenchModule.getPowerForState
          (TestbenchModule.TickState.mk 0 0 0 10 0 (fun _ => 0) (fun _ => 0)).previous_status *
          ((2 ^ 64 - ((TestbenchModule.TickState.mk 0 0 0 10 0 (fun _ => 0)
            (fun _ => 0)).last_transition_time - 5) : ℕ) : ℚ) ∧
    (TestbenchModule.TickState.mk 0 0 0 10 0 (fun _ => 0) (fun _ => 0)).energyEstimation <
      (TestbenchModule.finalizeEnergyTicks (TestbenchModule.TickState.mk 0 0 0 10 0 (fun _ => 0)
        (fun _ => 0)) 5).energyEstimation) :=
  ⟨by decide, by norm_num, by decide,
   C2_no_timestamp_order_check
     (TestbenchModule.TickState.mk 0 0 0 10 0 (fun _ => 0) (fun _ => 0))
     5 1 (by decide) (by norm_num) (by decide)⟩

/-- Claim C3 fails as stated: `finalizeEnergy` does not clear the open
interval, so a second finalize call at the same end time re-accumulates
the final interval's energy.  After one event at t=0 in state 0 and a
finalize at t=10 the total is 10.357 J; a second finalize doubles it. -/
theorem C3_counterexample :
    (TestbenchModule.finalizeEnergy (TestbenchModule.finalizeEnergy
        (TestbenchModule.processEvents TestbenchModule.initState
          [((0 : ℚ), (0 : ℤ))]) 10) 10).energyEstimation ≠
      (TestbenchModule.finalizeEnergy
        (TestbenchModule.processEvents TestbenchModule.initState
          [((0 : ℚ), (0 : ℤ))]) 10).energyEstimation := by
  simp only [TestbenchModule.processEvents, List.foldl, TestbenchModule.onEvent,
    TestbenchModule.finalizeEnergy, TestbenchModule.closeInterval, TestbenchModule.initState,
    TestbenchModule.getPowerForState, POWER_OFFICE, POWER_NOT_AT_WORK, POWER_REMOTE,
    POWER_OFFICE_BT, POWER_REMOTE_BT, POWER_NOT_AT_WORK_BT, POWER_DEFAULT,
    Function.update_apply]
  norm_num [Int.toNat]

/-- Claim C3 (amended): `finalizeEnergy` leaves the open interval in
place — `previous_status` and `last_transition_time` are unchanged — so
whenever an interval is open, a second finalize call at the same end
timestamp adds `power(previous_status) × (end - start)` to the total a
second time instead of being a no-op; the two calls agree only when that
increment is zero. -/
theorem C3_finalize_not_idempotent (st : TestbenchModule.State) (now : ℚ)
    (hopen : 0 ≤ st.previous_status) :
    (TestbenchModule.finalizeEnergy st now).previous_status = st.previous_status ∧
    (TestbenchModule.finalizeEnergy st now).last_transition_time = st.last_transition_time ∧
    (TestbenchModule.finalizeEnergy (TestbenchModule.finalizeEnergy st now) now).energyEstimation =
      (TestbenchModule.finalizeEnergy st now).energyEstimation +
        TestbenchModule.getPowerForState st.previous_status * (now - st.last_transition_time) := by
  unfold TestbenchModule.finalizeEnergy
  refine ⟨TestbenchModule.closeInterval_previous_status st now,
    TestbenchModule.closeInterval_last_transition_time st now, ?_⟩
  rw [TestbenchModule.closeInterval_energy (TestbenchModule.closeInterval st now) now
      (by rw [TestbenchModule.closeInterval_previous_status]; exact hopen),
    TestbenchModule.closeInterval_previous_status,
    TestbenchModule.closeInterval_last_transition_time]

/-- Witness for C3 at a concrete state with an open interval for state 0
started at t=0 (`State.mk 0 0 0 0 0 (fun _ => 0) (fun _ => 0)`),
finalized twice at t=10. -/
theorem C3_witness :
    (0 : ℤ) ≤ (TestbenchModule.State.mk 0 0 0 0 0 (fun _ => 0) (fun _ => 0)).previous_status ∧
    ((TestbenchModule.finalizeEnergy (TestbenchModule.State.mk 0 0 0 0 0 (fun _ => 0)
        (fun _ => 0)) 10).previous_status =
      (TestbenchModule.State.mk 0 0 0 0 0 (fun _ => 0) (fun _ => 0)).previous_status ∧
    (TestbenchModule.finalizeEnergy (TestbenchModule.State.mk 0 0 0 0 0 (fun _ => 0)
        (fun _ => 0)) 10).last_transition_time =
      (TestbenchModule.State.mk 0 0 0 0 0 (fun _ => 0) (fun _ => 0)).last_transition_time ∧
    (TestbenchModule.finalizeEnergy (TestbenchModule.finalizeEnergy
        (TestbenchModule.State.mk 0 0 0 0 0 (fun _ => 0) (fun _ => 0)) 10)
        10).energyEstimation =
      (TestbenchModule.finalizeEnergy (TestbenchModule.State.mk 0 0 0 0 0 (fun _ => 0)
          (fun _ => 0)) 10).energyEstimation +
        TestbenchModule.getPowerForState
          (TestbenchModule.State.mk 0 0 0 0 0 (fun _ => 0) (fun _ => 0)).previous_status *
          (10 - (TestbenchModule.State.mk 0 0 0 0 0 (fun _ => 0)
            (fun _ => 0)).last_transition_time)) :=
  ⟨by decide, C3_finalize_not_idempotent
    (TestbenchModule.State.mk 0 0 0 0 0 (fun _ => 0) (fun _ => 0)) 10 (by decide)⟩

/-- Claim C5 fails as stated: after the reference sequence and finalize,
`transition_count` is 11 (one per raw event, main.cpp line 96), not the
claimed 10. -/
theorem C5_counterexample :
    (TestbenchModule.finalizeEnergy
      (TestbenchModule.processEvents TestbenchModule.initState referenceSequence)
      4119).transition_count ≠ 10 := by
  decide

/-- Claim C5 (amended): the reference run yields the exact per-state
energies 3840.3756 / 268.6545 / 131.6352 / 10.96 / 6.9 / 4.37 J (each
within 0.02 J of the measured reference values), the exact durations
3708 / 263 / 128 / 10 / 6 / 4 s, a total of 4262.8953 J,
`transition_count = 11` (raw events; the CSV `Transitions` row reports
`transition_count - 1 = 10` closed intervals), and the validation against
the 4262.89 J reference passes within the 1% tolerance. -/
theorem C5_reference_run :
    (TestbenchModule.finalizeEnergy
      (TestbenchModule.processEvents TestbenchModule.initState referenceSequence) 4119).state_energy 0 = 3840.3756 ∧
    (TestbenchModule.finalizeEnergy
      (TestbenchModule.processEvents TestbenchModule.initState referenceSequence) 4119).state_duration 0 = 3708 ∧
    (TestbenchModule.finalizeEnergy
      (TestbenchModule.processEvents TestbenchModule.initState referenceSequence) 4119).state_energy 1 = 268.6545 ∧
    (TestbenchModule.finalizeEnergy
      (TestbenchModule.processEvents TestbenchModule.initState referenceSequence) 4119).state_duration 1 = 263 ∧
    (TestbenchModule.finalizeEnergy
      (TestbenchModule.processEvents TestbenchModule.initState referenceSequence) 4119).state_energy 2 = 131.6352 ∧
    (TestbenchModule.finalizeEnergy
      (TestbenchModule.processEvents TestbenchModule.initState referenceSequence) 4119).state_duration 2 = 128 ∧
    (TestbenchModule.finalizeEnergy
      (TestbenchModule.processEvents TestbenchModule.initState referenceSequence) 4119).state_energy 3 = 10.96 ∧
    (TestbenchModule.finalizeEnergy
      (TestbenchModule.processEvents TestbenchModule.initState referenceSequence) 4119).state_duration 3 = 10 ∧
    (TestbenchModule.finalizeEnergy
      (TestbenchModule.processEvents TestbenchModule.initState referenceSequence) 4119).state_energy 4 = 6.9 ∧
    (TestbenchModule.finalizeEnergy
      (TestbenchModule.processEvents TestbenchModule.initState referenceSequence) 4119).state_duration 4 = 6 ∧
    (TestbenchModule.finalizeEnergy
      (TestbenchModule.processEvents TestbenchModule.initState referenceSequence) 4119).state_energy 5 = 4.37 ∧
    (TestbenchModule.finalizeEnergy
      (TestbenchModule.processEvents TestbenchModule.initState referenceSequence) 4119).state_duration 5 = 4 ∧
    |(TestbenchModule.finalizeEnergy
      (TestbenchModule.processEvents TestbenchModule.initState referenceSequence) 4119).state_energy 0 - MEASURED_ENERGY_STATE 0| < 0.02 ∧
    |(TestbenchModule.finalizeEnergy
      (TestbenchModule.processEvents TestbenchModule.initState referenceSequence) 4119).state_energy 1 - MEASURED_ENERGY_STATE 1| < 0.02 ∧
    |(TestbenchModule.finalizeEnergy
      (TestbenchModule.processEvents TestbenchModule.initState referenceSequence) 4119).state_energy 2 - MEASURED_ENERGY_STATE 2| < 0.02 ∧
    |(TestbenchModule.finalizeEnergy
      (TestbenchModule.processEvents TestbenchModule.initState referenceSequence) 4119).state_energy 3 - MEASURED_ENERGY_STATE 3| < 0.02 ∧
    |(TestbenchModule.finalizeEnergy
      (TestbenchModule.processEvents TestbenchModule.initState referenceSequence) 4119).state_energy 4 - MEASURED_ENERGY_STATE 4| < 0.02 ∧
    |(TestbenchModule.finalizeEnergy
      (TestbenchModule.processEvents TestbenchModule.initState referenceSequence) 4119).state_energy 5 - MEASURED_ENERGY_STATE 5| < 0.02 ∧
    (TestbenchModule.finalizeEnergy
      (TestbenchModule.processEvents TestbenchModule.initState referenceSequence) 4119).energyEstimation = 4262.8953 ∧
    (TestbenchModule.finalizeEnergy
      (TestbenchModule.processEvents TestbenchModule.initState referenceSequence) 4119).transition_count = 11 ∧
    TestbenchModule.generateValidationCSV_transitions (TestbenchModule.finalizeEnergy
      (TestbenchModule.processEvents TestbenchModule.initState referenceSequence) 4119) = 10 ∧
    TestbenchModule.validateResults_error_percent (TestbenchModule.finalizeEnergy
      (TestbenchModule.processEvents TestbenchModule.initState referenceSequence) 4119).energyEstimation < 1 ∧
    TestbenchModule.validateResults_pass (TestbenchModule.finalizeEnergy
      (TestbenchModule.processEvents TestbenchModule.initState referenceSequence) 4119).energyEstimation = true := by
  simp only [TestbenchModule.processEvents, List.foldl, TestbenchModule.onEvent,
    TestbenchModule.finalizeEnergy, TestbenchModule.closeInterval, TestbenchModule.initState,
    TestbenchModule.getPowerForState, POWER_OFFICE, POWER_NOT_AT_WORK, POWER_REMOTE,
    POWER_OFFICE_BT, POWER_REMOTE_BT, POWER_NOT_AT_WORK_BT, POWER_DEFAULT,
    referenceSequence, Function.update_apply, MEASURED_ENERGY_STATE,
    TestbenchModule.generateValidationCSV_transitions,
    TestbenchModule.validateResults_pass, TestbenchModule.validateResults_error_percent,
    TestbenchModule.validateResults_error, MEASURED_TOTAL_ENERGY]
  norm_num [Int.toNat, abs]

/-- Claim C6 fails as stated: an interval dwelt in a negative state code
accumulates no energy at all (the `previous_status >= 0` guard at
main.cpp line 70 skips the accounting entirely), not energy at the
default power.  Dwelling in state -3 from t=0 to t=10 leaves the total at
0 J, not 1.0 W × 10 s = 10 J. -/
theorem C6_counterexample :
    (TestbenchModule.processEvents TestbenchModule.initState
        [((0 : ℚ), (-3 : ℤ)), ((10 : ℚ), (0 : ℤ))]).energyEstimation = 0 ∧
    (TestbenchModule.processEvents TestbenchModule.initState
        [((0 : ℚ), (-3 : ℤ)), ((10 : ℚ), (0 : ℤ))]).energyEstimation ≠ 1 * (10 - 0) := by
  constructor <;>
    · simp only [TestbenchModule.processEvents, List.foldl, TestbenchModule.onEvent,
        TestbenchModule.closeInterval, TestbenchModule.initState,
        TestbenchModule.getPowerForState, POWER_OFFICE, POWER_NOT_AT_WORK, POWER_REMOTE,
        POWER_OFFICE_BT, POWER_REMOTE_BT, POWER_NOT_AT_WORK_BT, POWER_DEFAULT,
        Function.update_apply]
      norm_num [Int.toNat]

/-- Claim C6 (amended): both power lookups are total pure functions
returning the default 1.0 W on every state code outside 0-5, negative
codes included; an interval whose dwelling state is 6 or more accumulates
total energy as exactly 1.0 W × duration; but an interval whose dwelling
state is negative is skipped entirely and accumulates nothing (a negative
`previous_status` is the "no prior state" sentinel). -/
theorem C6_default_power_fallback :
    (∀ s : ℤ, s < 0 ∨ 5 < s →
      TestbenchModule.getPowerForState s = 1 ∧ getPowerForState s = 1) ∧
    (∀ (st : TestbenchModule.State) (t : ℚ) (s : ℤ), 6 ≤ st.previous_status →
      (TestbenchModule.onEvent st (t, s)).energyEstimation =
        st.energyEstimation + 1 * (t - st.last_transition_time)) ∧
    (∀ (st : TestbenchModule.State) (t : ℚ) (s : ℤ), st.previous_status < 0 →
      (TestbenchModule.onEvent st (t, s)).energyEstimation = st.energyEstimation) := by
  refine ⟨fun s hs => ⟨?_, ?_⟩, fun st t s h6 => ?_, fun st t s hneg => ?_⟩
  · rcases hs with h | h
    · exact TestbenchModule.getPowerForState_of_neg s h
    · exact TestbenchModule.getPowerForState_of_six_le s (by omega)
  · unfold getPowerForState
    split_ifs <;> first | omega | norm_num
  · rw [TestbenchModule.onEvent_energy,
      TestbenchModule.closeInterval_energy st t (by omega),
      TestbenchModule.getPowerForState_of_six_le st.previous_status h6]
  · rw [TestbenchModule.onEvent_energy, TestbenchModule.closeInterval_of_neg st t hneg]

/-- Witness for C6 at the codes -3 and 7 and at concrete states with an
open interval for state 7 (energy accumulates at 1.0 W) and with the
sentinel previous state -1 (nothing accumulates). -/
theorem C6_witness :
    (TestbenchModule.getPowerForState (-3) = 1 ∧ getPowerForState (-3) = 1) ∧
    (TestbenchModule.getPowerForState 7 = 1 ∧ getPowerForState 7 = 1) ∧
    (TestbenchModule.onEvent (TestbenchModule.State.mk 0 0 7 0 0 (fun _ => 0) (fun _ => 0))
        (10, 0)).energyEstimation =
      (TestbenchModule.State.mk 0 0 7 0 0 (fun _ => 0) (fun _ => 0)).energyEstimation +
        1 * (10 - (TestbenchModule.State.mk 0 0 7 0 0 (fun _ => 0)
          (fun _ => 0)).last_transition_time) ∧
    (TestbenchModule.onEvent TestbenchModule.initState (10, 0)).energyEstimation =
      TestbenchModule.initState.energyEstimation :=
  ⟨C6_default_power_fallback.1 (-3) (Or.inl (by decide)),
   C6_default_power_fallback.1 7 (Or.inr (by decide)),
   C6_default_power_fallback.2.1 (TestbenchModule.State.mk 0 0 7 0 0 (fun _ => 0) (fun _ => 0))
     10 0 (by decide),
   C6_default_power_fallback.2.2 TestbenchModule.initState 10 0 (by decide)⟩

/-- Claim C7 fails as stated: a dwell interval spent in a state code
outside 0-5 (here 7) is not recorded in any per-state duration slot, so
after finalize the per-state durations sum to 0, not to
`finalize_time - first_event_time = 10`. -/
theorem C7_counterexample :
    TestbenchModule.sumDuration (TestbenchModule.finalizeEnergy
        (TestbenchModule.processEvents TestbenchModule.initState
          [((0 : ℚ), (7 : ℤ))]) 10) ≠ 10 - 0 := by
  simp only [TestbenchModule.processEvents, List.foldl, TestbenchModule.onEvent,
    TestbenchModule.finalizeEnergy, TestbenchModule.closeInterval, TestbenchModule.initState,
    TestbenchModule.getPowerForState, POWER_OFFICE, POWER_NOT_AT_WORK, POWER_REMOTE,
    POWER_OFFICE_BT, POWER_REMOTE_BT, POWER_NOT_AT_WORK_BT, POWER_DEFAULT,
    TestbenchModule.sumDuration, Function.update_apply]
  norm_num [Int.toNat]

/-- Claim C7 (amended): for every nonempty event sequence with
non-decreasing timestamps whose state codes all lie in 0-5, after
finalize the per-state durations sum exactly to
`finalize_time - time_of_first_event`; codes outside 0-5 break the
equality because their dwell time is dropped from the per-state table. -/
theorem C7_duration_conservation (e0 : ℚ × ℤ) (es : List (ℚ × ℤ)) (now : ℚ)
    (hall : ∀ e ∈ e0 :: es, 0 ≤ e.2 ∧ e.2 < 6)
    (hmono : List.Chain' (fun a b : ℚ × ℤ => a.1 ≤ b.1) (e0 :: es))
    (hnow : ∀ e ∈ e0 :: es, e.1 ≤ now) :
    TestbenchModule.sumDuration (TestbenchModule.finalizeEnergy
        (TestbenchModule.processEvents TestbenchModule.initState (e0 :: es)) now) =
      now - e0.1 := by
  obtain ⟨h00, h06⟩ := hall e0 (List.mem_cons_self e0 es)
  rw [TestbenchModule.processEvents_cons]
  set st1 := TestbenchModule.onEvent TestbenchModule.initState e0 with hst1
  have hp : st1.previous_status = e0.2 :=
    TestbenchModule.onEvent_previous_status TestbenchModule.initState e0
  have hl : st1.last_transition_time = e0.1 :=
    TestbenchModule.onEvent_last_transition_time TestbenchModule.initState e0
  have hs0 : TestbenchModule.sumDuration st1 = 0 := by
    rw [hst1, TestbenchModule.sumDuration_onEvent,
      TestbenchModule.closeInterval_of_neg TestbenchModule.initState e0.1 (by decide)]
    norm_num [TestbenchModule.sumDuration, TestbenchModule.initState]
  obtain ⟨hsum, hq0, hq6⟩ := TestbenchModule.processEvents_telescope es st1
    (by rw [hp]; exact h00) (by rw [hp]; exact h06)
    (fun x hx => hall x (List.mem_cons_of_mem e0 hx))
  unfold TestbenchModule.finalizeEnergy
  rw [TestbenchModule.closeInterval_sumDuration_in
      (TestbenchModule.processEvents st1 es) now hq0 hq6, hsum, hs0, hl]
  ring

/-- Witness for C7 on the concrete run: state 1 at t=0, state 0 at t=10,
finalize at t=20; the per-state durations sum to 20. -/
theorem C7_witness :
    (∀ e ∈ (((0 : ℚ), (1 : ℤ)) :: [((10 : ℚ), (0 : ℤ))]), 0 ≤ e.2 ∧ e.2 < 6) ∧
    List.Chain' (fun a b : ℚ × ℤ => a.1 ≤ b.1)
      (((0 : ℚ), (1 : ℤ)) :: [((10 : ℚ), (0 : ℤ))]) ∧
    (∀ e ∈ (((0 : ℚ), (1 : ℤ)) :: [((10 : ℚ), (0 : ℤ))]), e.1 ≤ (20 : ℚ)) ∧
    TestbenchModule.sumDuration (TestbenchModule.finalizeEnergy
        (TestbenchModule.processEvents TestbenchModule.initState
          (((0 : ℚ), (1 : ℤ)) :: [((10 : ℚ), (0 : ℤ))])) 20) =
      20 - ((0 : ℚ), (1 : ℤ)).1 :=
  ⟨by decide, by norm_num [List.chain'_cons], by norm_num,
   C7_duration_conservation ((0 : ℚ), (1 : ℤ)) [((10 : ℚ), (0 : ℤ))] 20
     (by decide) (by norm_num [List.chain'_cons]) (by norm_num)⟩

end DvconPower
